import Mathlib

/-!
Shallow embedding of the `setup.py` packaging manifest of the dragonn
repository, together with proofs of the specification's claims about the
package descriptor.

The Python module builds a single dictionary `config` of literal values and
passes it to `setuptools.setup` only when executed as the main program.  We
embed the dictionary as an association list from string keys to a small
value type mirroring the Python value shapes that occur in the source
(strings, booleans, lists of strings, and dictionaries from strings to
lists of strings).
-/

namespace Dragonn

/-- Value shapes occurring in the `config` dictionary of `setup.py`. -/
inductive ConfigValue where
  | pyBool (b : Bool)
  | pyStr (s : String)
  | pyList (l : List String)
  | pyDict (m : List (String × List String))
deriving DecidableEq, Repr

/-- The `install_requires` list from `setup.py`, in source order. -/
def install_requires : List String :=
  ["numpy>=1.9", "keras>=2.2.0", "tensorflow>=1.6", "deeplift", "shapely",
   "simdna==0.3", "matplotlib", "scikit-learn", "pydot_ng==1.0.0", "h5py"]

/-- The `extras_requires` dictionary from `setup.py`. -/
def extras_requires : List (String × List String) :=
  [("tensorflow with gpu", ["tensorflow-gpu>=1.7"])]

/-- The `dependency_links` list from `setup.py`. -/
def dependency_links : List String :=
  ["https://github.com/kundajelab/simdna/tarball/0.3#egg=simdna-0.3"]

/-- The `entry_points` dictionary from `setup.py`. -/
def entry_points : List (String × List String) :=
  [("console_scripts", ["dragonn = dragonn.__main__:main"])]

/-- The `config` dictionary from `setup.py`, keys in source order. -/
def config : List (String × ConfigValue) :=
  [("include_package_data", .pyBool true),
   ("description", .pyStr "Deep RegulAtory GenOmic Neural Networks (DragoNN)"),
   ("download_url", .pyStr "https://github.com/kundajelab/dragonn"),
   ("version", .pyStr "0.2"),
   ("packages", .pyList ["dragonn"]),
   ("setup_requires", .pyList []),
   ("install_requires", .pyList install_requires),
   ("extras_requires", .pyDict extras_requires),
   ("dependency_links", .pyList dependency_links),
   ("scripts", .pyList []),
   ("entry_points", .pyDict entry_points),
   ("name", .pyStr "dragonn")]

/-- Characters of a string strictly before the first occurrence of the
pattern `pat`; the whole string when `pat` does not occur. -/
def dropAfter (pat : List Char) : List Char → List Char
  | [] => []
  | c :: cs => if pat.isPrefixOf (c :: cs) then [] else c :: dropAfter pat cs

/-- Characters of a string strictly after the first occurrence of the
pattern `pat`, or `none` when `pat` does not occur. -/
def takeAfter (pat : List Char) : List Char → Option (List Char)
  | [] => none
  | c :: cs =>
      if pat.isPrefixOf (c :: cs) then some ((c :: cs).drop pat.length)
      else takeAfter pat cs

/-- Whether the pattern occurs as a substring. -/
def hasSub (pat s : String) : Bool := (takeAfter pat.toList s.toList).isSome

/-- Shape of the version constraint of a dependency specifier. -/
inductive ConstraintShape where
  | minVersion | exactVersion | unconstrained
deriving DecidableEq, Repr

/-- Classify a dependency specifier by its version-constraint operator. -/
def constraintShape (s : String) : ConstraintShape :=
  if hasSub ">=" s then .minVersion
  else if hasSub "==" s then .exactVersion
  else .unconstrained

/-- The bare dependency name of a specifier: everything before the version
operator, if any. -/
def depName (s : String) : String :=
  String.mk (dropAfter ">=".toList
    (dropAfter "==".toList s.toList))

/-- The (name, version) pair of an exact-version (`==`) specifier. -/
def exactPair (s : String) : Option (String × String) :=
  match takeAfter "==".toList s.toList with
  | some v => some (String.mk (dropAfter "==".toList s.toList), String.mk v)
  | none => none

/-- The (name, version) pair encoded in the `#egg=name-version` fragment of
a dependency-link URI, when present. -/
def eggPair (url : String) : Option (String × String) :=
  match takeAfter "#egg=".toList url.toList with
  | some frag =>
      match takeAfter "-".toList frag with
      | some v => some (String.mk (dropAfter "-".toList frag), String.mk v)
      | none => none
  | none => none

/-- Parse a console-script entry of the form `name = target` into the
command name and the callable target string. -/
def parseEntry (s : String) : Option (String × String) :=
  match takeAfter " = ".toList s.toList with
  | some t => some (String.mk (dropAfter " = ".toList s.toList), String.mk t)
  | none => none

/-- Whether a target string has the form `module:callable`: exactly one
colon, with non-empty text on both sides. -/
def isCallableTarget (t : String) : Bool :=
  match takeAfter ":".toList t.toList with
  | some c =>
      !(dropAfter ":".toList t.toList).isEmpty && !c.isEmpty
        && !(takeAfter ":".toList c).isSome
  | none => false

/-- Evaluating the module body builds the descriptor from literal values
only; the argument stands for the (absent) runtime input. -/
def buildConfig (_ : Unit) : List (String × ConfigValue) := config

/-- Replace the value stored under the `version` key of the descriptor. -/
def setVersion (v : String) : List (String × ConfigValue) :=
  config.map (fun p => if p.1 == "version" then (p.1, ConfigValue.pyStr v) else p)

/-- Observable side effects of evaluating the module: the only possible
effect is the call `setup(**config)`. -/
inductive Effect where
  | setupCall (c : List (String × ConfigValue))
deriving DecidableEq

/-- Evaluating the module under a given value of the Python `__name__`
variable: the descriptor is always constructed, and `setup(**config)` runs
only under the `if __name__ == '__main__'` guard. -/
def runModule (dunderName : String) : List (String × ConfigValue) × List Effect :=
  (config,
   if dunderName == "__main__" then [Effect.setupCall config] else [])

/-- C1: the required-dependency sequence consists of exactly ten
specifiers whose names and constraint shapes are, in order: numpy
(minimum), keras (minimum), tensorflow (minimum), deeplift
(unconstrained), shapely (unconstrained), simdna (exact), matplotlib
(unconstrained), scikit-learn (unconstrained), pydot_ng (exact), h5py
(unconstrained). -/
theorem install_requires_ten_shapes :
    install_requires.length = 10 ∧
    install_requires.map constraintShape =
      [ConstraintShape.minVersion, ConstraintShape.minVersion,
       ConstraintShape.minVersion, ConstraintShape.unconstrained,
       ConstraintShape.unconstrained, ConstraintShape.exactVersion,
       ConstraintShape.unconstrained, ConstraintShape.unconstrained,
       ConstraintShape.exactVersion, ConstraintShape.unconstrained] ∧
    install_requires.map depName =
      ["numpy", "keras", "tensorflow", "deeplift", "shapely", "simdna",
       "matplotlib", "scikit-learn", "pydot_ng", "h5py"] := by
  decide

/-- C2: the optional-dependency-groups mapping of the descriptor has
exactly one group, whose value is the single specifier
`tensorflow-gpu>=1.7`, a GPU variant of the tensorflow backend with a
minimum-version constraint. -/
theorem extras_single_gpu_group :
    extras_requires.length = 1 ∧
    (extras_requires.map fun p => p.2) = [["tensorflow-gpu>=1.7"]] ∧
    (extras_requires.map fun p => p.2.map fun s => (depName s, constraintShape s))
      = [[("tensorflow-gpu", ConstraintShape.minVersion)]] := by
  decide

/-- C3: the auxiliary-source-locations sequence is a single URI whose
`#egg=` fragment resolves exactly the pair (simdna, 0.3); that pair is an
exact-version specifier of the required-dependency sequence, and
conversely every exact-version pair named `simdna` in required
dependencies is resolved by an auxiliary source location. -/
theorem dependency_link_resolves_simdna :
    dependency_links.length = 1 ∧
    dependency_links.filterMap eggPair = [("simdna", "0.3")] ∧
    (install_requires.filterMap exactPair).filter (fun p => p.1 == "simdna")
      = dependency_links.filterMap eggPair ∧
    ("simdna", "0.3") ∈ install_requires.filterMap exactPair := by
  decide

/-- C4: the console-entry-points mapping holds exactly one command under
the `console_scripts` key; the command name `dragonn` is non-empty and it
maps to the single callable target string `dragonn.__main__:main`, which
has the form module, colon, callable. -/
theorem entry_points_single_command :
    entry_points.length = 1 ∧
    List.lookup "console_scripts" entry_points
      = some ["dragonn = dragonn.__main__:main"] ∧
    parseEntry "dragonn = dragonn.__main__:main"
      = some ("dragonn", "dragonn.__main__:main") ∧
    "dragonn" ≠ "" ∧
    isCallableTarget "dragonn.__main__:main" = true := by
  decide

/-- C5: the dependency names of the required-dependency sequence, version
constraints stripped, are pairwise distinct. -/
theorem install_requires_names_nodup :
    (install_requires.map depName).Nodup := by
  decide

/-- C6: the optional-dependency group sits under the key
`extras_requires`, and a lookup of the installer-recognized key
`extras_require` in the descriptor finds no entry. -/
theorem extras_require_key_absent :
    List.lookup "extras_require" config = none ∧
    List.lookup "extras_requires" config
      = some (ConfigValue.pyDict extras_requires) := by
  decide

/-- C7: building the descriptor takes no runtime input and is
deterministic: two evaluations agree on every field. -/
theorem buildConfig_deterministic (u v : Unit) (k : String) :
    List.lookup k (buildConfig u) = List.lookup k (buildConfig v) := rfl

/-- C8: replacing the version field changes only the version: the stored
version becomes the new string and every other field of the descriptor,
the required-dependency sequence included, is unchanged. -/
theorem setVersion_frame (v : String) :
    List.lookup "version" (setVersion v) = some (ConfigValue.pyStr v) ∧
    ∀ k, k ≠ "version" → List.lookup k (setVersion v) = List.lookup k config := by
  constructor
  · simp [setVersion, config, List.lookup]
  · intro k hk
    have hb : (k == "version") = false := beq_eq_false_iff_ne.mpr hk
    simp [setVersion, config, List.lookup, hb]

/-- Witness for C8 at a concrete version string and field. -/
theorem setVersion_frame_witness :
    List.lookup "install_requires" (setVersion "9.9")
      = List.lookup "install_requires" config :=
  (setVersion_frame "9.9").2 "install_requires" (by decide)

/-- C9: the name and version fields of the descriptor are the non-empty
strings `dragonn` and `0.2`. -/
theorem name_version_nonempty :
    List.lookup "name" config = some (ConfigValue.pyStr "dragonn") ∧
    List.lookup "version" config = some (ConfigValue.pyStr "0.2") ∧
    "dragonn" ≠ "" ∧ "0.2" ≠ "" := by
  decide

/-- C10: evaluating the module always constructs the literal descriptor,
and the `setup(**config)` call happens exactly when the module runs as the
main program. -/
theorem runModule_setup_iff_main (n : String) :
    (runModule n).1 = config ∧
    (Effect.setupCall config ∈ (runModule n).2 ↔ n = "__main__") := by
  refine ⟨rfl, ?_⟩
  by_cases h : n = "__main__"
  · subst h; simp [runModule]
  · have hb : (n == "__main__") = false := beq_eq_false_iff_ne.mpr h
    simp [runModule, hb, h]

end Dragonn
